import Mathlib

/-!
# Radiance prefilter block (`src/gfx-pbr/Radiance.cpp`)

A shallow embedding of `mud::BlockRadiance`: the per-frame hook
`begin_gfx_block`, the prefilter algorithm `prefilter_radiance` with its
cache `m_prefiltered`, and the per-draw hook `submit_pass`.

The bgfx backend is external.  Every call the block makes to it is recorded,
in program order, in `World.trace`; the handles the backend returns for new
textures are given by `Backend.tex_handle`, indexed by the number of textures
created so far, so that the theorems hold for any handle assignment
(fresh handles, reused handles, or the invalid handle on exhaustion).
Pointers are `Option`s and a null dereference is the result `none`.
-/

namespace mud

/-! ## Backend vocabulary -/

/-- The two values of `bgfx::TextureFormat::Enum` the block asks for. -/
inductive TextureFormat
  | RGBA16F
  | RGB10A2
  deriving DecidableEq, Repr

/-- Texture usage and sampling flags combined with `|` in the source. -/
inductive TexFlag
  | RT
  | BLIT_DST
  | CLAMP
  | POINT
  deriving DecidableEq, Repr

/-- Sampler stages named in the source (`TextureSampler::Source0`, `TextureSampler::Radiance`). -/
inductive TextureSampler
  | Source0
  | Radiance
  deriving DecidableEq, Repr

/-- Uniform and sampler handles named in the source. -/
inductive Uniform
  | s_source_0
  | u_source_0_level
  | u_prefilter_envmap_params
  | s_radiance_map
  deriving DecidableEq, Repr

/-- Shader programs; `m_prefilter_program` is "filter/prefilter_envmap". -/
inductive Program
  | prefilter_envmap
  deriving DecidableEq, Repr

/-- The index value of an invalid bgfx handle (`bgfx::kInvalidHandle`, `UINT16_MAX`). -/
def kInvalidHandle : Nat := 65535

/-- `bgfx::isValid(handle)`: the index differs from `kInvalidHandle`. -/
def isValid (idx : Nat) : Bool := idx != kInvalidHandle

/-- The conversion `uint16_t(x)` of an unsigned value. -/
def uint16 (x : Nat) : Nat := x % 65536

/-- `bgfx::Attachment { handle, mip, layer }`. -/
structure Attachment where
  handle : Nat
  mip : Nat
  layer : Nat
  deriving DecidableEq, Repr

/-- A frame buffer handle, identified by what it was created from: one
attachment of an existing texture (`bgfx::createFrameBuffer(1, &attachment, false)`),
or a texture of its own (`FrameBuffer { size, format, flags }`), whose handle
`bgfx::getTexture` returns. -/
inductive Fbo
  | attachment (a : Attachment)
  | target (texture : Nat)
  deriving DecidableEq, Repr

/-- `mud::FrameBuffer`: a size and a frame buffer handle. -/
structure FrameBuffer where
  m_size : Nat × Nat
  m_fbo : Fbo
  deriving DecidableEq, Repr

/-- `bgfx::getTexture(fbo)`: the texture behind a frame buffer. -/
def getTexture : Fbo → Nat
  | Fbo.attachment a => a.handle
  | Fbo.target t => t

/-- One call into the backend, with its arguments (and, for creations, the
handle it returned).  A `float` argument is given by the rational number that
is its value.  `filter_submit_quad` and `copy_submit_quad` are the
calls `m_filter.submit_quad` and `m_copy.submit_quad`; the constant trailing
arguments `0U, true` of the former are left out. -/
inductive GpuCmd
  | destroy (texture : Nat)
  | createTexture2D (result width height : Nat) (hasMips : Bool) (numLayers : Nat)
      (format : TextureFormat) (flags : List TexFlag)
  | createFrameBuffer (a : Attachment)
  | createTarget (texture : Nat) (size : Nat × Nat) (format : TextureFormat) (flags : List TexFlag)
  | setTexture (stage : TextureSampler) (sampler : Uniform) (texture : Nat)
      (flags : Option (List TexFlag))
  | setUniformInt (u : Uniform) (value : Int)
  | setUniformVec4 (u : Uniform) (x y z w : ℚ)
  | filter_submit_quad (target : FrameBuffer) (view : Nat) (program : Program)
  | copy_submit_quad (target : FrameBuffer) (view : Nat) (texture : Nat)
  | blit (view dst dstMip dstZ src width height : Nat)
  | frame
  deriving DecidableEq

/-- What the block is built and run against: the capability query
`bgfx::isTextureValid(depth, cubeMap, numLayers, format, flags)`, the handles
returned for new textures (`tex_handle n` for the texture created after `n`
others), the `BGFX_CAPS_TEXTURE_BLIT` capability bit, and whether
`MUD_PLATFORM_EMSCRIPTEN` is defined. -/
structure Backend where
  isTextureValid : Nat → Bool → Nat → TextureFormat → List TexFlag → Bool
  tex_handle : Nat → Nat
  caps_texture_blit : Bool
  emscripten : Bool

/-! ## Data model -/

/-- `mud::Radiance`, as the block uses it: `m_texture` is the pointer to the
source `Texture` (null is `none`), flattened to the index of that texture's
bgfx handle; `m_roughness_array` is the index of the derived texture handle. -/
structure Radiance where
  m_texture : Option Nat
  m_roughness_array : Nat
  m_preprocessed : Bool
  deriving DecidableEq, Repr

/-- `mud::Render`, as the block uses it: `m_environment` is a pointer to an
environment (null is `none`), `m_target_size` is `m_target->m_size`, and
`preprocess_pass` is the view id that `render.preprocess_pass()` yields.
The render target itself is always present: the frame driver owns that
precondition. -/
structure Render where
  m_environment : Option Nat
  m_target_size : Nat × Nat
  preprocess_pass : Nat

/-- Everything the block reads and writes: the radiance of every environment
(by environment identity), the block's cache `m_prefiltered`
(source texture index to roughness array index), the backend calls made so
far, the number of textures created so far, and the lines printed. -/
structure World where
  m_radiance : Nat → Radiance
  m_prefiltered : List (Nat × Nat)
  trace : List GpuCmd
  ntex : Nat
  log : List String

/-- `m_prefiltered.find(key)`: the mapped value, or `none` for `end()`. -/
def map_find (m : List (Nat × Nat)) (key : Nat) : Option Nat :=
  (m.find? (fun p => p.1 == key)).map Prod.snd

/-- `m_prefiltered[key] = value`. -/
def map_assign (m : List (Nat × Nat)) (key value : Nat) : List (Nat × Nat) :=
  (key, value) :: m.filter (fun p => p.1 != key)

/-- Writing through the reference `Radiance& radiance`. -/
def set_radiance (w : World) (e : Nat) (r : Radiance) : World :=
  { w with m_radiance := fun x => if x = e then r else w.m_radiance x }

/-! ## `BlockRadiance::prefilter_radiance` -/

/-- `constexpr int roughness_levels = 8;` -/
def roughness_levels : Nat := 8

/-- `MUD_RADIANCE_MIPMAPS` is defined unconditionally just above its use, so
`mips` is `true`. -/
def mips : Bool := true

/-- Under `MUD_RADIANCE_MIPMAPS`, `texture_layers` is `1`. -/
def texture_layers : Nat := 1

/-- `bool blit_support = false;` (the capability query is commented out). -/
def blit_support : Bool := false

/-- `num_samples`: 64 under `MUD_PLATFORM_EMSCRIPTEN`, else 512. -/
def num_samples (bk : Backend) : ℚ := if bk.emscripten then 64 else 512

/-- The least shift `k`, searched upward from the last argument, with
`2^23 ≤ a * 2^k / b`: it puts the quotient of the positive numbers `a` and `b`
in the range `[2^23, 2^24)` of a 24-bit significand. -/
def float32_shift : Nat → Nat → Nat → Nat → Nat
  | 0, _, _, k => k
  | fuel + 1, a, b, k => if b * 2 ^ 23 ≤ a * 2 ^ k then k else float32_shift fuel a b (k + 1)

/-- The value of `float(a) / float(b)` in IEEE 754 binary32 arithmetic, rounded
to nearest with ties to even, for integers `a` and `b > 0` below `2^24` (which
convert to `float` exactly) whose quotient is below `2^24`: the quotient is
scaled to a 24-bit significand, rounded to an integer, and scaled back. -/
def float32_div (a b : Nat) : ℚ :=
  if a = 0 then 0
  else
    let k := float32_shift (24 + b) a b 0
    let n := a * 2 ^ k / b
    let r := a * 2 ^ k % b
    let m := if 2 * r < b then n else if b < 2 * r then n + 1 else if n % 2 = 0 then n else n + 1
    (m : ℚ) / ((2 ^ k : Nat) : ℚ)

/-- `float roughness = i / float(roughness_levels - 1);` -/
def roughness (i : Nat) : ℚ := float32_div i (roughness_levels - 1)

/-- The line printed when no format is usable. -/
def warning : String := "WARNING: could not prefilter env map roughness levels\n"

/-- The lambda `blit_to_array(texture, size, level)`: the backend calls it makes. -/
def blit_to_array (radiance_array view_id texture : Nat) (size : Nat × Nat) (level : Nat) :
    List GpuCmd :=
  (if blit_support then
    [GpuCmd.blit view_id radiance_array 0 (uint16 level) texture (uint16 size.1) (uint16 size.2)]
  else
    let attachment : Attachment :=
      { handle := radiance_array
        mip := uint16 (if mips then level else 0)
        layer := uint16 (if mips then 0 else level) }
    let render_target : FrameBuffer := { m_size := size, m_fbo := Fbo.attachment attachment }
    [GpuCmd.createFrameBuffer attachment, GpuCmd.copy_submit_quad render_target view_id texture])
  ++ [GpuCmd.frame]

/-- The body of the loop over levels, for level `i`, when `ntex` textures
exist: the backend calls it makes. -/
def prefilter_level (bk : Backend) (radiance_array view_id width height : Nat)
    (format : TextureFormat) (i ntex : Nat) : List GpuCmd :=
  let size : Nat × Nat := if mips then (width >>> i, height >>> i) else (width, height)
  let copy_target : FrameBuffer := { m_size := size, m_fbo := Fbo.target (bk.tex_handle ntex) }
  let source_level : Int := (i : Int) - 1
  [ GpuCmd.createTarget (bk.tex_handle ntex) size format [TexFlag.POINT],
    GpuCmd.setTexture TextureSampler.Source0 Uniform.s_source_0 radiance_array
      (some [TexFlag.POINT]),
    GpuCmd.setUniformInt Uniform.u_source_0_level source_level,
    GpuCmd.setUniformVec4 Uniform.u_prefilter_envmap_params (roughness i) (num_samples bk) 0 0,
    GpuCmd.filter_submit_quad copy_target view_id Program.prefilter_envmap ]
  ++ blit_to_array radiance_array view_id (getTexture copy_target.m_fbo) size i

/-- The loop `for(uint16_t i = 1; i < roughness_levels; i++)`, from `i` on:
the backend calls it makes and the number of textures afterwards.  The first
argument bounds the number of iterations; the loop itself stops when
`i < roughness_levels` fails. -/
def prefilter_levels (bk : Backend) (radiance_array view_id width height : Nat)
    (format : TextureFormat) : Nat → Nat → Nat → List GpuCmd × Nat
  | 0, _, ntex => ([], ntex)
  | fuel + 1, i, ntex =>
    if i < roughness_levels then
      let rest := prefilter_levels bk radiance_array view_id width height format fuel
        (uint16 (i + 1)) (ntex + 1)
      (prefilter_level bk radiance_array view_id width height format i ntex ++ rest.1, rest.2)
    else ([], ntex)

/-- The capability query the block makes, twice, for a format:
`bgfx::isTextureValid(1, mips, texture_layers, format, BGFX_TEXTURE_RT | GFX_TEXTURE_CLAMP)`. -/
def format_accepted (bk : Backend) (format : TextureFormat) : Bool :=
  bk.isTextureValid 1 mips texture_layers format [TexFlag.RT, TexFlag.CLAMP]

/-- The format negotiation: `RGBA16F`, replaced by `RGB10A2` when the
capability query rejects it. -/
def negotiated_format (bk : Backend) : TextureFormat :=
  if !format_accepted bk TextureFormat.RGBA16F then TextureFormat.RGB10A2
  else TextureFormat.RGBA16F

/-- `if(bgfx::isValid(radiance.m_roughness_array)) bgfx::destroy(radiance.m_roughness_array);` -/
def destroy_if_valid (old : Nat) : List GpuCmd :=
  if isValid old then [GpuCmd.destroy old] else []

/-- `uint16_t width = uint16_t(render.m_target->m_size.x);` -/
def width (render : Render) : Nat := uint16 render.m_target_size.1

/-- `uint16_t height = uint16_t(render.m_target->m_size.y);` -/
def height (render : Render) : Nat := uint16 render.m_target_size.2

/-- The rest of `prefilter_radiance` once a format is settled (creation of the
output, level 0, the loop over the levels), when `ntex` textures exist: the
backend calls made and the number of textures afterwards.  The first texture
created, `bk.tex_handle ntex`, is the output `radiance_array`. -/
def prefilter_commands (bk : Backend) (render : Render) (source : Nat) (format : TextureFormat)
    (ntex : Nat) : List GpuCmd × Nat :=
  let radiance_array := bk.tex_handle ntex
  let create := GpuCmd.createTexture2D radiance_array (width render) (height render) mips
    texture_layers format
    (if blit_support then [TexFlag.BLIT_DST, TexFlag.CLAMP] else [TexFlag.RT, TexFlag.CLAMP])
  let view_id := render.preprocess_pass
  let level0 := blit_to_array radiance_array view_id source (width render, height render) 0
  let levels := prefilter_levels bk radiance_array view_id (width render) (height render) format
    roughness_levels 1 (ntex + 1)
  ([create] ++ level0 ++ levels.1, levels.2)

/-- `BlockRadiance::prefilter_radiance(render, radiance)`; `radiance` is the
environment whose radiance the reference designates. -/
def prefilter_radiance (bk : Backend) (w : World) (render : Render) (radiance : Nat) :
    Option World :=
  match render.m_environment with
  | none => none
  | some env =>
    if (w.m_radiance env).m_preprocessed = true then some w
    else
      match (w.m_radiance radiance).m_texture with
      | none => none
      | some source =>
        match map_find w.m_prefiltered source with
        | some cached =>
          some (set_radiance w radiance
            { (w.m_radiance radiance) with m_roughness_array := cached, m_preprocessed := true })
        | none =>
          if !isValid source then some w
          else
            let destroyed := destroy_if_valid (w.m_radiance radiance).m_roughness_array
            let format := negotiated_format bk
            if !format_accepted bk format then
              some { w with trace := w.trace ++ destroyed, log := w.log ++ [warning] }
            else
              let cmds := prefilter_commands bk render source format w.ntex
              let radiance_array := bk.tex_handle w.ntex
              some (set_radiance
                { w with
                  m_prefiltered := map_assign w.m_prefiltered source radiance_array
                  trace := w.trace ++ destroyed ++ cmds.1
                  ntex := cmds.2 }
                radiance
                { (w.m_radiance radiance) with
                  m_roughness_array := radiance_array, m_preprocessed := true })

/-- `BlockRadiance::begin_gfx_block(render)`. -/
def begin_gfx_block (bk : Backend) (w : World) (render : Render) : Option World :=
  match render.m_environment with
  | none => some w
  | some env =>
    if (w.m_radiance env).m_texture = none then some w
    else prefilter_radiance bk w render env

/-! ## Per-draw hooks -/

/-- Modelled from the spec: `ShaderVersion` (declared outside the excerpt), the
per-draw permutation flags; `m_options` lists the (block index, option) pairs
that are set, and is empty by default. -/
structure ShaderVersion where
  m_options : List (Nat × Nat)
  deriving DecidableEq, Repr

/-- Modelled from the spec: `ShaderVersion::set_option(block, option)` (declared
outside the excerpt) sets one permutation flag. -/
def ShaderVersion.set_option (v : ShaderVersion) (block option : Nat) : ShaderVersion :=
  { m_options := (block, option) :: v.m_options }

/-- Position of "RADIANCE_ENVMAP" in the block's option table. -/
def RADIANCE_ENVMAP : Nat := 0

/-- `BlockRadiance::submit_pass(render, render_pass, shader_version)`;
`m_index` is the block's index and the render pass is unused. -/
def submit_pass (m_index : Nat) (w : World) (render : Render) (shader_version : ShaderVersion) :
    Option (World × ShaderVersion) :=
  match render.m_environment with
  | none => none
  | some env =>
    let radiance := (w.m_radiance env).m_roughness_array
    if isValid radiance then
      some ({ w with trace := w.trace ++
                [GpuCmd.setTexture TextureSampler.Radiance Uniform.s_radiance_map radiance none] },
            shader_version.set_option m_index RADIANCE_ENVMAP)
    else some (w, shader_version)

/-- `BlockRadiance::submit_gfx_element`, on the element's shader version. -/
def submit_gfx_element (m_index : Nat) (w : World) (render : Render)
    (element_shader_version : ShaderVersion) : Option (World × ShaderVersion) :=
  submit_pass m_index w render element_shader_version

/-- `BlockRadiance::submit_gfx_cluster`, on the cluster's shader version. -/
def submit_gfx_cluster (m_index : Nat) (w : World) (render : Render)
    (cluster_shader_version : ShaderVersion) : Option (World × ShaderVersion) :=
  submit_pass m_index w render cluster_shader_version

/-! ## Histories -/

/-- What happens to the block and the environments between two observations:
the frame driver calls `begin_gfx_block`; the owner of an environment changes
its source texture and resets its preprocessed flag; or the owner of an
environment overwrites its radiance altogether. -/
inductive Action
  | begin (render : Render)
  | source_changed (env : Nat) (texture : Option Nat)
  | radiance_written (env : Nat) (r : Radiance)

/-- One action. -/
def step (bk : Backend) (w : World) : Action → Option World
  | Action.begin render => begin_gfx_block bk w render
  | Action.source_changed env texture =>
    some (set_radiance w env
      { (w.m_radiance env) with m_texture := texture, m_preprocessed := false })
  | Action.radiance_written env r => some (set_radiance w env r)

/-- A sequence of actions, in order. -/
def run (bk : Backend) : World → List Action → Option World
  | w, [] => some w
  | w, a :: rest =>
    match step bk w a with
    | none => none
    | some w1 => run bk w1 rest

/-- The state before the block has run: no cache entry, no backend call, no
texture, nothing printed, every environment unpreprocessed with an invalid
roughness array and the source texture given by `sources`. -/
def initial_world (sources : Nat → Option Nat) : World :=
  { m_radiance := fun e =>
      { m_texture := sources e, m_roughness_array := kInvalidHandle, m_preprocessed := false }
    m_prefiltered := []
    trace := []
    ntex := 0
    log := [] }

/-! ## Reading a trace -/

/-- The call allocates a GPU resource (a texture or a frame buffer). -/
def GpuCmd.allocates : GpuCmd → Bool
  | GpuCmd.createTexture2D _ _ _ _ _ _ _ => true
  | GpuCmd.createFrameBuffer _ => true
  | GpuCmd.createTarget _ _ _ _ => true
  | _ => false

/-- The call is `bgfx::createTexture2D`. -/
def GpuCmd.is_createTexture2D : GpuCmd → Bool
  | GpuCmd.createTexture2D _ _ _ _ _ _ _ => true
  | _ => false

/-- The call is a prefilter pass. -/
def GpuCmd.is_filter_pass : GpuCmd → Bool
  | GpuCmd.filter_submit_quad _ _ _ => true
  | _ => false

/-- The call copies a texture, by a quad render or by a blit. -/
def GpuCmd.is_copy : GpuCmd → Bool
  | GpuCmd.copy_submit_quad _ _ _ => true
  | GpuCmd.blit _ _ _ _ _ _ _ => true
  | _ => false

/-- The call is `bgfx::blit`. -/
def GpuCmd.is_blit : GpuCmd → Bool
  | GpuCmd.blit _ _ _ _ _ _ _ => true
  | _ => false

/-- The call is the frame barrier `bgfx::frame()`. -/
def GpuCmd.is_frame : GpuCmd → Bool
  | GpuCmd.frame => true
  | _ => false

/-- The call submits GPU work: a draw or a copy. -/
def GpuCmd.is_draw (c : GpuCmd) : Bool := c.is_filter_pass || c.is_copy

/-- The format of the texture the call creates, if it creates one. -/
def GpuCmd.created_format : GpuCmd → Option TextureFormat
  | GpuCmd.createTexture2D _ _ _ _ _ format _ => some format
  | GpuCmd.createTarget _ _ format _ => some format
  | _ => none

/-- The formats of the textures created by a trace, in order. -/
def created_formats (cmds : List GpuCmd) : List TextureFormat :=
  cmds.filterMap GpuCmd.created_format

/-- The size of the scratch target the call creates, if it creates one. -/
def GpuCmd.scratch_size : GpuCmd → Option (Nat × Nat)
  | GpuCmd.createTarget _ size _ _ => some size
  | _ => none

/-- The textures created and not destroyed since, most recent first. -/
def live_textures (cmds : List GpuCmd) : List Nat :=
  cmds.foldl (fun live c =>
    match c with
    | GpuCmd.createTexture2D t _ _ _ _ _ _ => t :: live
    | GpuCmd.createTarget t _ _ _ => t :: live
    | GpuCmd.destroy t => live.filter (fun x => x != t)
    | _ => live) []

/-- One write into a slot of the output texture: the slot, the texture copied
into it, whether by blit, and the roughness of the prefilter pass that
rendered that texture (`none` when no pass rendered it). -/
structure LevelWrite where
  mip : Nat
  layer : Nat
  texture : Nat
  by_blit : Bool
  roughness : Option ℚ
  deriving DecidableEq

/-- What a reader of a trace knows at some point of it: the prefilter
parameters last set, the texture and source level last bound for sampling,
the textures rendered by prefilter passes with the roughness of the pass
(most recent first), and the writes into the output so far (in order). -/
structure Reader where
  params : Option ℚ
  passes : List (Nat × ℚ)
  writes : List LevelWrite

/-- The reader after one more call; `out` is the output texture. -/
def Reader.read (out : Nat) (s : Reader) : GpuCmd → Reader
  | GpuCmd.setUniformVec4 u x _ _ _ =>
    if u = Uniform.u_prefilter_envmap_params then { s with params := some x } else s
  | GpuCmd.filter_submit_quad target _ _ =>
    match s.params with
    | some r => { s with passes := (getTexture target.m_fbo, r) :: s.passes }
    | none => s
  | GpuCmd.copy_submit_quad target _ texture =>
    match target.m_fbo with
    | Fbo.attachment a =>
      if a.handle = out then
        { s with writes := s.writes ++
            [{ mip := a.mip, layer := a.layer, texture := texture, by_blit := false,
               roughness := (s.passes.find? (fun p => p.1 == texture)).map Prod.snd }] }
      else s
    | Fbo.target _ => s
  | GpuCmd.blit _ dst dstMip dstZ src _ _ =>
    if dst = out then
      { s with writes := s.writes ++
          [{ mip := dstMip, layer := dstZ, texture := src, by_blit := true,
             roughness := (s.passes.find? (fun p => p.1 == src)).map Prod.snd }] }
    else s
  | _ => s

/-- The writes into the output texture `out` made by a trace, in order. -/
def level_writes (out : Nat) (cmds : List GpuCmd) : List LevelWrite :=
  (cmds.foldl (Reader.read out) { params := none, passes := [], writes := [] }).writes

/-- The call `begin_gfx_block` on environment `e` runs the prefilter algorithm
to its end (a successful run): the environment is not preprocessed, its
source texture `source` is a valid handle that the cache does not hold, and
the backend accepts one of the two formats. -/
def runs_prefilter (bk : Backend) (w : World) (render : Render) (e source : Nat) : Prop :=
  render.m_environment = some e ∧
  (w.m_radiance e).m_preprocessed = false ∧
  (w.m_radiance e).m_texture = some source ∧
  isValid source = true ∧
  map_find w.m_prefiltered source = none ∧
  (format_accepted bk TextureFormat.RGBA16F = true ∨
    format_accepted bk TextureFormat.RGB10A2 = true)

/-- The render context has nothing to prefilter: no environment, or an
environment without a source texture, or one whose source handle is invalid. -/
def no_valid_source (w : World) (render : Render) : Prop :=
  render.m_environment = none ∨
  ∃ e, render.m_environment = some e ∧
    ((w.m_radiance e).m_texture = none ∨
      ∃ source, (w.m_radiance e).m_texture = some source ∧ isValid source = false)

/-! ## Example states -/

/-- A backend that accepts every format, hands out the handles 100, 101, ...
and reports blit support. -/
def example_backend : Backend :=
  { isTextureValid := fun _ _ _ _ _ => true
    tex_handle := fun n => n + 100
    caps_texture_blit := true
    emscripten := false }

/-- A backend that rejects `RGBA16F`, accepts `RGB10A2`, and reports no blit support. -/
def fallback_backend : Backend :=
  { isTextureValid := fun _ _ _ format _ => format == TextureFormat.RGB10A2
    tex_handle := fun n => n + 100
    caps_texture_blit := false
    emscripten := false }

/-- A backend that rejects every format. -/
def rejecting_backend : Backend :=
  { isTextureValid := fun _ _ _ _ _ => false
    tex_handle := fun n => n + 100
    caps_texture_blit := false
    emscripten := false }

/-- A render context on environment `e`, with a 256 by 128 target and view 3. -/
def example_render (e : Nat) : Render :=
  { m_environment := some e, m_target_size := (256, 128), preprocess_pass := 3 }

/-- A render context without environment. -/
def render_without_environment : Render :=
  { m_environment := none, m_target_size := (256, 128), preprocess_pass := 3 }

/-- The initial state in which environment 2 has the invalid handle as source
and every other environment has the source texture 5. -/
def example_world : World :=
  initial_world (fun e => if e = 2 then some kInvalidHandle else some 5)

/-- A state in which every environment is preprocessed, with roughness array 100. -/
def preprocessed_world : World :=
  { m_radiance := fun _ =>
      { m_texture := some 5, m_roughness_array := 100, m_preprocessed := true }
    m_prefiltered := [(5, 100)]
    trace := []
    ntex := 8
    log := [] }

/-- Environments 0 and 1 share the source 5 and are prefiltered; then the
source of environment 0 becomes 6 and environment 0 is prefiltered again. -/
def shared_then_changed : List Action :=
  [ Action.begin (example_render 0), Action.begin (example_render 1),
    Action.source_changed 0 (some 6), Action.begin (example_render 0) ]

/-- The state after environment 0 of `example_world` has been prefiltered on
`example_backend`. -/
def prefiltered_world : World :=
  (run example_backend example_world [Action.begin (example_render 0)]).getD example_world

/-! ## Helper lemmas -/

theorem negotiated_format_accepted (bk : Backend)
    (h : format_accepted bk TextureFormat.RGBA16F = true ∨
      format_accepted bk TextureFormat.RGB10A2 = true) :
    format_accepted bk (negotiated_format bk) = true := by
  unfold negotiated_format
  cases h16 : format_accepted bk TextureFormat.RGBA16F with
  | true => simp [h16]
  | false =>
    rcases h with h | h
    · rw [h16] at h; cases h
    · simp [h]

theorem begin_gfx_block_eq_prefilter (bk : Backend) (w : World) (render : Render) (e source : Nat)
    (henv : render.m_environment = some e) (hsrc : (w.m_radiance e).m_texture = some source) :
    begin_gfx_block bk w render = prefilter_radiance bk w render e := by
  simp [begin_gfx_block, henv, hsrc]

theorem prefilter_radiance_of_runs (bk : Backend) (w : World) (render : Render) (e source : Nat)
    (h : runs_prefilter bk w render e source) :
    prefilter_radiance bk w render e =
      some (set_radiance
        { w with
          m_prefiltered := map_assign w.m_prefiltered source (bk.tex_handle w.ntex)
          trace := w.trace ++ destroy_if_valid (w.m_radiance e).m_roughness_array ++
            (prefilter_commands bk render source (negotiated_format bk) w.ntex).1
          ntex := (prefilter_commands bk render source (negotiated_format bk) w.ntex).2 }
        e
        { (w.m_radiance e) with
          m_roughness_array := bk.tex_handle w.ntex, m_preprocessed := true }) := by
  obtain ⟨henv, hpre, hsrc, hvalid, hmiss, hfmt⟩ := h
  have hacc := negotiated_format_accepted bk hfmt
  simp [prefilter_radiance, henv, hpre, hsrc, hvalid, hmiss, hacc]

theorem begin_gfx_block_of_runs (bk : Backend) (w : World) (render : Render) (e source : Nat)
    (h : runs_prefilter bk w render e source) :
    begin_gfx_block bk w render = prefilter_radiance bk w render e :=
  begin_gfx_block_eq_prefilter bk w render e source h.1 h.2.2.1

/-- The calls of a successful run, level by level. -/
theorem prefilter_commands_eq (bk : Backend) (render : Render) (source : Nat)
    (format : TextureFormat) (n : Nat) :
    prefilter_commands bk render source format n =
      ([GpuCmd.createTexture2D (bk.tex_handle n) (width render) (height render) true 1 format
          [TexFlag.RT, TexFlag.CLAMP]] ++
        blit_to_array (bk.tex_handle n) render.preprocess_pass source
          (width render, height render) 0 ++
        (prefilter_level bk (bk.tex_handle n) render.preprocess_pass
            (width render) (height render) format 1 (n + 1) ++
          prefilter_level bk (bk.tex_handle n) render.preprocess_pass
            (width render) (height render) format 2 (n + 2) ++
          prefilter_level bk (bk.tex_handle n) render.preprocess_pass
            (width render) (height render) format 3 (n + 3) ++
          prefilter_level bk (bk.tex_handle n) render.preprocess_pass
            (width render) (height render) format 4 (n + 4) ++
          prefilter_level bk (bk.tex_handle n) render.preprocess_pass
            (width render) (height render) format 5 (n + 5) ++
          prefilter_level bk (bk.tex_handle n) render.preprocess_pass
            (width render) (height render) format 6 (n + 6) ++
          prefilter_level bk (bk.tex_handle n) render.preprocess_pass
            (width render) (height render) format 7 (n + 7)),
       n + 8) := by
  simp [prefilter_commands, prefilter_levels, roughness_levels, uint16, mips, texture_layers,
    blit_support, Nat.add_assoc]

/-- What a successful run leaves behind. -/
theorem runs_prefilter_result (bk : Backend) (w : World) (render : Render) (e source : Nat)
    (h : runs_prefilter bk w render e source) :
    ∃ w1, prefilter_radiance bk w render e = some w1 ∧
      begin_gfx_block bk w render = some w1 ∧
      w1.trace = w.trace ++ (destroy_if_valid (w.m_radiance e).m_roughness_array ++
        (prefilter_commands bk render source (negotiated_format bk) w.ntex).1) ∧
      w1.m_radiance e = { m_texture := some source, m_roughness_array := bk.tex_handle w.ntex,
                          m_preprocessed := true } ∧
      (∀ x, x ≠ e → w1.m_radiance x = w.m_radiance x) ∧
      w1.m_prefiltered = map_assign w.m_prefiltered source (bk.tex_handle w.ntex) ∧
      w1.ntex = w.ntex + 8 ∧
      w1.log = w.log := by
  refine ⟨_, prefilter_radiance_of_runs bk w render e source h, ?_, ?_, ?_, ?_, rfl, ?_, rfl⟩
  · rw [begin_gfx_block_of_runs bk w render e source h,
      prefilter_radiance_of_runs bk w render e source h]
  · simp [set_radiance, List.append_assoc]
  · simp [set_radiance, h.2.2.1]
  · intro x hx
    simp [set_radiance, hx]
  · simp [set_radiance, prefilter_commands_eq]

/-- The binary32 quotients of 1, ..., 7 by 7. -/
theorem float32_div_sevenths :
    (List.range' 1 7).map (fun i => float32_div i 7) =
      [9586981 / 67108864, 9586981 / 33554432, 14380471 / 33554432, 9586981 / 16777216,
        5991863 / 8388608, 14380471 / 16777216, 1] := by
  norm_num [float32_div, float32_shift, List.range']

/-- The binary32 quotient of `i` by 7 is within `2^-25` of `i/7`. -/
theorem float32_div_sevenths_close (i : Nat) (h1 : 1 ≤ i) (h7 : i ≤ 7) :
    |float32_div i 7 - (i : ℚ) / 7| ≤ 1 / 2 ^ 25 := by
  interval_cases i <;> norm_num [float32_div, float32_shift, abs_le]

theorem map_find_assign (m : List (Nat × Nat)) (key value : Nat) :
    map_find (map_assign m key value) key = some value := by
  simp [map_find, map_assign]

/-- When every key of the cache is a valid handle, an invalid handle is not found. -/
theorem map_find_invalid (m : List (Nat × Nat)) (key : Nat)
    (hm : ∀ p ∈ m, isValid p.1 = true) (hkey : isValid key = false) :
    map_find m key = none := by
  unfold map_find
  rw [Option.map_eq_none', List.find?_eq_none]
  intro p hp hpk
  have h1 := hm p hp
  have h2 : p.1 = key := by simpa using hpk
  rw [h2, hkey] at h1
  cases h1

theorem map_assign_keys_valid (m : List (Nat × Nat)) (key value : Nat)
    (hm : ∀ p ∈ m, isValid p.1 = true) (hkey : isValid key = true) :
    ∀ p ∈ map_assign m key value, isValid p.1 = true := by
  intro p hp
  unfold map_assign at hp
  rcases List.mem_cons.mp hp with h | h
  · rw [h]; exact hkey
  · exact hm p (List.mem_filter.mp h).1

theorem prefilter_radiance_keys_valid (bk : Backend) (w w1 : World) (render : Render) (e : Nat)
    (hm : ∀ p ∈ w.m_prefiltered, isValid p.1 = true)
    (h : prefilter_radiance bk w render e = some w1) :
    ∀ p ∈ w1.m_prefiltered, isValid p.1 = true := by
  unfold prefilter_radiance at h
  split at h
  · cases h
  · split at h
    · cases h; exact hm
    · split at h
      · cases h
      · split at h
        · cases h; exact hm
        · split at h
          · cases h; exact hm
          · rename_i hvalid
            simp only at h
            split at h
            · cases h; exact hm
            · cases h
              exact map_assign_keys_valid _ _ _ hm (by simpa using hvalid)

theorem begin_gfx_block_keys_valid (bk : Backend) (w w1 : World) (render : Render)
    (hm : ∀ p ∈ w.m_prefiltered, isValid p.1 = true)
    (h : begin_gfx_block bk w render = some w1) :
    ∀ p ∈ w1.m_prefiltered, isValid p.1 = true := by
  unfold begin_gfx_block at h
  split at h
  · cases h; exact hm
  · split at h
    · cases h; exact hm
    · exact prefilter_radiance_keys_valid bk w w1 render _ hm h

theorem run_keys_valid (bk : Backend) (history : List Action) :
    ∀ (w w1 : World), (∀ p ∈ w.m_prefiltered, isValid p.1 = true) →
      run bk w history = some w1 → ∀ p ∈ w1.m_prefiltered, isValid p.1 = true := by
  induction history with
  | nil =>
    intro w w1 hm h
    simp only [run, Option.some.injEq] at h
    rw [← h]; exact hm
  | cons a rest ih =>
    intro w w1 hm h
    unfold run at h
    split at h
    · cases h
    · rename_i w2 hstep
      refine ih w2 w1 ?_ h
      cases a with
      | begin render => exact begin_gfx_block_keys_valid bk w w2 render hm hstep
      | source_changed env texture =>
        simp only [step, Option.some.injEq] at hstep
        rw [← hstep]; exact hm
      | radiance_written env r =>
        simp only [step, Option.some.injEq] at hstep
        rw [← hstep]; exact hm

/-- The loop over the levels stops by its own condition: more iterations
allowed give the same calls. -/
theorem prefilter_levels_fuel (bk : Backend) (radiance_array view_id wd ht : Nat)
    (format : TextureFormat) (k n : Nat) :
    prefilter_levels bk radiance_array view_id wd ht format (k + 7) 1 n =
      prefilter_levels bk radiance_array view_id wd ht format roughness_levels 1 n := by
  cases k with
  | zero => simp [prefilter_levels, roughness_levels, uint16]
  | succ j => simp [prefilter_levels, roughness_levels, uint16]

/-- With an environment present, `submit_pass` binds the roughness array and
sets `RADIANCE_ENVMAP` exactly when the handle is valid, and otherwise changes
nothing. -/
theorem submit_pass_of_environment (m_index : Nat) (w : World) (render : Render) (e : Nat)
    (v : ShaderVersion) (henv : render.m_environment = some e) :
    submit_pass m_index w render v =
      if isValid (w.m_radiance e).m_roughness_array then
        some ({ w with trace := w.trace ++
                  [GpuCmd.setTexture TextureSampler.Radiance Uniform.s_radiance_map
                    (w.m_radiance e).m_roughness_array none] },
              v.set_option m_index RADIANCE_ENVMAP)
      else some (w, v) := by
  simp [submit_pass, henv]

/-! ## The claims -/

/-- C2 (idempotence).  When the environment of the render context is already
marked preprocessed, `begin_gfx_block` returns the state it was given: no
backend call is added to the trace, and the radiance of every environment,
the cache, the texture count and the log are unchanged; `prefilter_radiance`
does the same whatever radiance it is handed; and two calls in succession
give what one call gives. -/
theorem begin_gfx_block_preprocessed_noop (bk : Backend) (w : World) (render : Render) (e : Nat)
    (henv : render.m_environment = some e)
    (hpre : (w.m_radiance e).m_preprocessed = true) :
    begin_gfx_block bk w render = some w ∧
    (∀ radiance, prefilter_radiance bk w render radiance = some w) ∧
    (begin_gfx_block bk w render).bind (fun w1 => begin_gfx_block bk w1 render) =
      begin_gfx_block bk w render := by
  have h1 : ∀ radiance, prefilter_radiance bk w render radiance = some w := by
    intro radiance
    simp [prefilter_radiance, henv, hpre]
  have h2 : begin_gfx_block bk w render = some w := by
    unfold begin_gfx_block
    rw [henv]
    simp only
    split
    · rfl
    · exact h1 e
  exact ⟨h2, h1, by rw [h2]; exact h2⟩

/-- C3 (total failure path).  For an unpreprocessed environment whose source
texture is valid and not in the cache, on a backend that rejects both
`RGBA16F` and `RGB10A2`, `prefilter_radiance` (and `begin_gfx_block`) returns
normally; the environment stays unpreprocessed and every radiance is
unchanged; the only backend call issued is the destruction of the old
roughness array when that handle is valid, so that no call allocates a
resource and none is a draw or a copy; the cache and the texture count are
unchanged; and exactly one line, the warning, is added to the log. -/
theorem prefilter_radiance_both_formats_rejected (bk : Backend) (w : World) (render : Render)
    (e source : Nat)
    (henv : render.m_environment = some e)
    (hpre : (w.m_radiance e).m_preprocessed = false)
    (hsrc : (w.m_radiance e).m_texture = some source)
    (hvalid : isValid source = true)
    (hmiss : map_find w.m_prefiltered source = none)
    (h16 : format_accepted bk TextureFormat.RGBA16F = false)
    (h10 : format_accepted bk TextureFormat.RGB10A2 = false) :
    ∃ w1, prefilter_radiance bk w render e = some w1 ∧
      begin_gfx_block bk w render = some w1 ∧
      (w1.m_radiance e).m_preprocessed = false ∧
      w1.m_radiance = w.m_radiance ∧
      w1.m_prefiltered = w.m_prefiltered ∧
      w1.ntex = w.ntex ∧
      w1.log = w.log ++ [warning] ∧
      ∃ issued, w1.trace = w.trace ++ issued ∧
        issued = destroy_if_valid (w.m_radiance e).m_roughness_array ∧
        ∀ c ∈ issued, c.allocates = false ∧ c.is_draw = false := by
  have hrun : prefilter_radiance bk w render e =
      some { w with
        trace := w.trace ++ destroy_if_valid (w.m_radiance e).m_roughness_array
        log := w.log ++ [warning] } := by
    simp [prefilter_radiance, henv, hpre, hsrc, hvalid, hmiss, negotiated_format, h16, h10]
  refine ⟨_, hrun, ?_, hpre, rfl, rfl, rfl, rfl, _, rfl, rfl, ?_⟩
  · rw [begin_gfx_block_eq_prefilter bk w render e source henv hsrc, hrun]
  · intro c hc
    unfold destroy_if_valid at hc
    split at hc
    · simp only [List.mem_singleton] at hc
      rw [hc]
      exact ⟨rfl, rfl⟩
    · cases hc

/-- C7 (missing or invalid source is a no-op).  In every state reached from a
state with an empty cache by calls of `begin_gfx_block` and by writes of the
environments' owners, `begin_gfx_block` on a render context with no
environment, or whose environment has no source texture, or whose source
handle is invalid, returns the state it was given: the trace, the log, the
radiance of every environment and the cache are unchanged. -/
theorem begin_gfx_block_no_valid_source_noop (bk : Backend) (w0 w : World)
    (history : List Action) (render : Render)
    (hempty : w0.m_prefiltered = [])
    (hreach : run bk w0 history = some w)
    (hsrc : no_valid_source w render) :
    begin_gfx_block bk w render = some w := by
  have hkeys : ∀ p ∈ w.m_prefiltered, isValid p.1 = true :=
    run_keys_valid bk history w0 w (by rw [hempty]; intro p hp; cases hp) hreach
  rcases hsrc with henv | ⟨e, henv, hnone | ⟨source, hsome, hinvalid⟩⟩
  · simp [begin_gfx_block, henv]
  · simp [begin_gfx_block, henv, hnone]
  · rw [begin_gfx_block_eq_prefilter bk w render e source henv hsome]
    unfold prefilter_radiance
    rw [henv]
    simp only
    split
    · rfl
    · rw [hsome]
      simp only
      rw [map_find_invalid _ _ hkeys hinvalid]
      simp [hinvalid]

/-- C4 (format fallback).  For an unpreprocessed environment whose source
texture is valid and not in the cache: on a backend that rejects `RGBA16F`
and accepts `RGB10A2`, with `format = RGB10A2`, and on a backend that accepts
`RGBA16F`, with `format = RGBA16F`, `prefilter_radiance` returns normally with
the environment marked preprocessed; the one `createTexture2D` call creates
the environment's new roughness array with that format; the eight textures
created (the output and the seven scratch targets) all have that format. -/
theorem prefilter_radiance_format_fallback (bk : Backend) (w : World) (render : Render)
    (e source : Nat) (format : TextureFormat)
    (henv : render.m_environment = some e)
    (hpre : (w.m_radiance e).m_preprocessed = false)
    (hsrc : (w.m_radiance e).m_texture = some source)
    (hvalid : isValid source = true)
    (hmiss : map_find w.m_prefiltered source = none)
    (hfmt : (format_accepted bk TextureFormat.RGBA16F = false ∧
              format_accepted bk TextureFormat.RGB10A2 = true ∧
              format = TextureFormat.RGB10A2) ∨
            (format_accepted bk TextureFormat.RGBA16F = true ∧
              format = TextureFormat.RGBA16F)) :
    ∃ w1, prefilter_radiance bk w render e = some w1 ∧
      (w1.m_radiance e).m_preprocessed = true ∧
      ∃ issued, w1.trace = w.trace ++ issued ∧
        issued.filter GpuCmd.is_createTexture2D =
          [GpuCmd.createTexture2D (w1.m_radiance e).m_roughness_array (width render)
            (height render) true 1 format [TexFlag.RT, TexFlag.CLAMP]] ∧
        created_formats issued = List.replicate 8 format ∧
        (issued.filter (fun c => c.scratch_size.isSome)).map GpuCmd.created_format =
          List.replicate 7 (some format) := by
  have hneg : negotiated_format bk = format := by
    unfold negotiated_format
    rcases hfmt with ⟨h16, _, hf⟩ | ⟨h16, hf⟩ <;> simp [h16, hf]
  have hruns : runs_prefilter bk w render e source := by
    refine ⟨henv, hpre, hsrc, hvalid, hmiss, ?_⟩
    rcases hfmt with ⟨_, h10, _⟩ | ⟨h16, _⟩
    · exact Or.inr h10
    · exact Or.inl h16
  obtain ⟨w1, h1, _, htrace, hrad, _, _, _, _⟩ := runs_prefilter_result bk w render e source hruns
  refine ⟨w1, h1, by rw [hrad], _, htrace, ?_⟩
  rw [prefilter_commands_eq, hrad, hneg]
  unfold destroy_if_valid
  split <;>
    simp [created_formats, prefilter_level, blit_to_array, blit_support, GpuCmd.created_format,
      GpuCmd.is_createTexture2D, GpuCmd.scratch_size, List.replicate]

/-- C5, as the code has it (level count and roughness mapping).  In a
successful run the writes into the output texture are, in order: mip level 0,
a copy of the source texture that no prefilter pass rendered; then for
i = 1, ..., 7 mip level i, a copy of the scratch texture last rendered by a
prefilter pass whose roughness parameter is the `float` quotient of i by 7.
So there are exactly eight writes, one per level 0..7 in increasing order, and
exactly seven prefilter passes.  The seven roughness values are the binary32
numbers listed; each is within 2^-25 of i/7, and the last, of level 7, is 1. -/
theorem prefilter_radiance_levels (bk : Backend) (w : World) (render : Render) (e source : Nat)
    (h : runs_prefilter bk w render e source) :
    ∃ w1, prefilter_radiance bk w render e = some w1 ∧
      ∃ issued, w1.trace = w.trace ++ issued ∧
        level_writes (w1.m_radiance e).m_roughness_array issued =
          { mip := 0, layer := 0, texture := source, by_blit := false, roughness := none } ::
          (List.range' 1 7).map (fun i =>
            { mip := i, layer := 0, texture := bk.tex_handle (w.ntex + i), by_blit := false,
              roughness := some (float32_div i 7) }) ∧
        (List.range' 1 7).map (fun i => float32_div i 7) =
          [9586981 / 67108864, 9586981 / 33554432, 14380471 / 33554432, 9586981 / 16777216,
            5991863 / 8388608, 14380471 / 16777216, 1] ∧
        (∀ i, 1 ≤ i → i ≤ 7 → |float32_div i 7 - (i : ℚ) / 7| ≤ 1 / 2 ^ 25) ∧
        ((level_writes (w1.m_radiance e).m_roughness_array issued).map
            (fun x => x.roughness)).getLast? = some (some 1) ∧
        issued.countP GpuCmd.is_filter_pass = 7 := by
  obtain ⟨w1, h1, _, htrace, hrad, _, _, _, _⟩ := runs_prefilter_result bk w render e source h
  have hlast : float32_div 7 7 = 1 := by norm_num [float32_div, float32_shift]
  refine ⟨w1, h1, _, htrace, ?_, float32_div_sevenths, float32_div_sevenths_close, ?_, ?_⟩
  · rw [prefilter_commands_eq, hrad]
    unfold destroy_if_valid
    split <;>
      simp [level_writes, Reader.read, prefilter_level, blit_to_array, blit_support, mips, uint16,
        getTexture, roughness, roughness_levels, List.range']
  · rw [prefilter_commands_eq, hrad]
    unfold destroy_if_valid
    split <;>
      simp [level_writes, Reader.read, prefilter_level, blit_to_array, blit_support, mips, uint16,
        getTexture, roughness, roughness_levels, hlast]
  · rw [prefilter_commands_eq]
    unfold destroy_if_valid
    split <;>
      simp [prefilter_level, blit_to_array, blit_support, GpuCmd.is_filter_pass]

/-- C5 as stated fails.  On `example_backend`, prefiltering environment 0 of
`example_world` succeeds, and the roughness parameters of the passes behind
the writes of levels 1, ..., 7 are the binary32 numbers listed: that of level
1 is 9586981/67108864, which is not 1/7, and likewise the values of levels 2
to 6 are not 2/7, ..., 6/7. -/
theorem roughness_not_exact_sevenths :
    ∃ w1, begin_gfx_block example_backend example_world (example_render 0) = some w1 ∧
      (level_writes 100 w1.trace).map (fun x => x.roughness) =
        [none, some (9586981 / 67108864), some (9586981 / 33554432),
          some (14380471 / 33554432), some (9586981 / 16777216), some (5991863 / 8388608),
          some (14380471 / 16777216), some 1] ∧
      (9586981 / 67108864 : ℚ) ≠ 1 / 7 ∧
      (9586981 / 33554432 : ℚ) ≠ 2 / 7 ∧
      (14380471 / 33554432 : ℚ) ≠ 3 / 7 ∧
      (9586981 / 16777216 : ℚ) ≠ 4 / 7 ∧
      (5991863 / 8388608 : ℚ) ≠ 5 / 7 ∧
      (14380471 / 16777216 : ℚ) ≠ 6 / 7 := by
  obtain ⟨w1, _, hb, htrace, _, _, _, _, _⟩ :=
    runs_prefilter_result example_backend example_world (example_render 0) 0 5
      (by unfold runs_prefilter; decide)
  refine ⟨w1, hb, ?_, by norm_num, by norm_num, by norm_num, by norm_num, by norm_num,
    by norm_num⟩
  have hvalues := float32_div_sevenths
  simp only [List.range', List.map_cons, List.map_nil, List.cons.injEq, and_true] at hvalues
  obtain ⟨v1, v2, v3, v4, v5, v6, v7⟩ := hvalues
  have hold : destroy_if_valid (example_world.m_radiance 0).m_roughness_array = [] := rfl
  have hempty : example_world.trace = [] := rfl
  have hhandle : example_backend.tex_handle example_world.ntex = 100 := rfl
  rw [htrace, prefilter_commands_eq, hold, hempty, hhandle]
  simp [level_writes, Reader.read, prefilter_level, blit_to_array, blit_support, mips, uint16,
    getTexture, roughness, roughness_levels, v1, v2, v3, v4, v5, v6, v7]

/-- C1 (cache sharing).  Two distinct environments have the same source
texture and are not preprocessed, and the first call of `begin_gfx_block`
succeeds, that is, runs the prefilter algorithm (valid source not yet in the
cache, a format accepted).  Then both calls return normally; the first issues
the prefilter work once (one `createTexture2D`, seven prefilter passes, eight
copies, eight frame barriers); the second adds no backend call, creates no
texture and leaves the cache as it is; afterwards the second environment's
roughness array is the first environment's, and both are preprocessed. -/
theorem begin_gfx_block_cache_sharing (bk : Backend) (w : World) (r1 r2 : Render)
    (e1 e2 source : Nat)
    (hne : e1 ≠ e2)
    (hfirst : runs_prefilter bk w r1 e1 source)
    (henv2 : r2.m_environment = some e2)
    (hsrc2 : (w.m_radiance e2).m_texture = some source)
    (hpre2 : (w.m_radiance e2).m_preprocessed = false) :
    ∃ w1 w2, begin_gfx_block bk w r1 = some w1 ∧ begin_gfx_block bk w1 r2 = some w2 ∧
      (∃ issued, w1.trace = w.trace ++ issued ∧
        issued.countP GpuCmd.is_createTexture2D = 1 ∧
        issued.countP GpuCmd.is_filter_pass = 7 ∧
        issued.countP GpuCmd.is_copy = 8 ∧
        issued.countP GpuCmd.is_frame = 8) ∧
      w2.trace = w1.trace ∧
      w2.ntex = w1.ntex ∧
      w2.m_prefiltered = w1.m_prefiltered ∧
      (w2.m_radiance e2).m_roughness_array = (w2.m_radiance e1).m_roughness_array ∧
      (w2.m_radiance e1).m_preprocessed = true ∧
      (w2.m_radiance e2).m_preprocessed = true := by
  obtain ⟨w1, _, hb1, htrace, hrad, hother, hcache, _, _⟩ :=
    runs_prefilter_result bk w r1 e1 source hfirst
  have hrad2 : w1.m_radiance e2 = w.m_radiance e2 := hother e2 (Ne.symm hne)
  have hfind : map_find w1.m_prefiltered source = some (bk.tex_handle w.ntex) := by
    rw [hcache]; exact map_find_assign _ _ _
  have hb2 : begin_gfx_block bk w1 r2 =
      some (set_radiance w1 e2
        { (w1.m_radiance e2) with
          m_roughness_array := bk.tex_handle w.ntex, m_preprocessed := true }) := by
    simp [begin_gfx_block, prefilter_radiance, henv2, hrad2, hsrc2, hpre2, hfind]
  refine ⟨w1, _, hb1, hb2, ⟨_, htrace, ?_⟩, rfl, rfl, rfl, ?_, ?_, ?_⟩
  · rw [prefilter_commands_eq]
    unfold destroy_if_valid
    split <;>
      simp [prefilter_level, blit_to_array, blit_support, GpuCmd.is_createTexture2D,
        GpuCmd.is_filter_pass, GpuCmd.is_copy, GpuCmd.is_frame]
  · simp [set_radiance, hne, hrad]
  · simp [set_radiance, hne, hrad]
  · simp [set_radiance]

/-- C9, as the code has it (layout strategy).  In a successful run, on any
backend and whatever its blit capability, the output is created by one
`createTexture2D` call as a mip-mapped texture with one layer and render
target usage; the scratch target of level i = 1, ..., 7 has size
(width >> i, height >> i); the eight levels are written, in order, into mip
level i of layer 0 by a quad render; and no blit is issued. -/
theorem prefilter_radiance_layout (bk : Backend) (w : World) (render : Render) (e source : Nat)
    (h : runs_prefilter bk w render e source) :
    ∃ w1, prefilter_radiance bk w render e = some w1 ∧
      ∃ issued, w1.trace = w.trace ++ issued ∧
        issued.filter GpuCmd.is_createTexture2D =
          [GpuCmd.createTexture2D (bk.tex_handle w.ntex) (width render) (height render) true 1
            (negotiated_format bk) [TexFlag.RT, TexFlag.CLAMP]] ∧
        issued.filterMap GpuCmd.scratch_size =
          (List.range' 1 7).map (fun i => (width render >>> i, height render >>> i)) ∧
        (level_writes (bk.tex_handle w.ntex) issued).map (fun x => (x.mip, x.layer, x.by_blit)) =
          (List.range 8).map (fun i => (i, 0, false)) ∧
        issued.countP GpuCmd.is_blit = 0 := by
  obtain ⟨w1, h1, _, htrace, _, _, _, _, _⟩ := runs_prefilter_result bk w render e source h
  refine ⟨w1, h1, _, htrace, ?_⟩
  rw [prefilter_commands_eq]
  unfold destroy_if_valid
  split <;>
    simp [level_writes, Reader.read, prefilter_level, blit_to_array, blit_support, mips, uint16,
      getTexture, List.range', List.range, List.range.loop, GpuCmd.is_createTexture2D,
      GpuCmd.scratch_size, GpuCmd.is_blit]

/-- C9 as stated fails.  On a backend that reports blit support the run
succeeds, yet no blit is issued and none of the eight level writes is a blit.
On a backend that reports no blit support the run succeeds, yet the output is
created mip-mapped with one layer, not as an array of eight layers, and the
scratch targets are halved per level, not at the full 256 by 128. -/
theorem blit_capability_ignored :
    example_backend.caps_texture_blit = true ∧
    (begin_gfx_block example_backend example_world (example_render 0)).map
      (fun w => ((w.m_radiance 0).m_preprocessed, w.trace.countP GpuCmd.is_blit,
        (level_writes 100 w.trace).map (fun x => x.by_blit))) =
      some (true, 0, List.replicate 8 false) ∧
    fallback_backend.caps_texture_blit = false ∧
    (begin_gfx_block fallback_backend example_world (example_render 0)).map
      (fun w => ((w.m_radiance 0).m_preprocessed, w.trace.filter GpuCmd.is_createTexture2D,
        w.trace.filterMap GpuCmd.scratch_size)) =
      some (true,
        [GpuCmd.createTexture2D 100 256 128 true 1 TextureFormat.RGB10A2
          [TexFlag.RT, TexFlag.CLAMP]],
        [(128, 64), (64, 32), (32, 16), (16, 8), (8, 4), (4, 2), (2, 1)]) := by
  decide

/-- C6 (radiance invariant), at a failing history.  From the initial state,
environments 0 and 1, which share the source texture 5, are prefiltered: both
end with the roughness array 100.  The source of environment 0 then changes
to 6 with its flag reset, and environment 0 is prefiltered again: the run
destroys texture 100.  Afterwards environment 1 is still preprocessed, its
source is still 5, its roughness array is still 100, and texture 100 is not
among the live textures. -/
theorem shared_roughness_array_destroyed :
    (run example_backend example_world shared_then_changed).map
      (fun w => ((w.m_radiance 1).m_preprocessed, (w.m_radiance 1).m_texture,
        (w.m_radiance 1).m_roughness_array,
        decide ((w.m_radiance 1).m_roughness_array ∈ live_textures w.trace),
        w.trace.countP (fun c => c == GpuCmd.destroy 100))) =
      some (true, some 5, 100, false, 1) := by
  decide

/-- C8 (silent degradation on submit), at a failing input.  On a render
context without environment, `submit_gfx_element` and `submit_gfx_cluster`
dereference the null environment pointer and do not complete, in any state,
for any block index and shader version; `begin_gfx_block` on the same render
context checks the pointer and returns the state unchanged. -/
theorem submit_pass_absent_environment (bk : Backend) (m_index : Nat) (w : World)
    (v : ShaderVersion) :
    submit_gfx_element m_index w render_without_environment v = none ∧
    submit_gfx_cluster m_index w render_without_environment v = none ∧
    begin_gfx_block bk w render_without_environment = some w :=
  ⟨rfl, rfl, rfl⟩

/-! ## The claims at concrete inputs -/

/-- C1 at a concrete input: environments 0 and 1 of `example_world`, which share the source texture 5. -/
theorem begin_gfx_block_cache_sharing_witness :
    runs_prefilter example_backend example_world (example_render 0) 0 5 ∧
    ∃ w1 w2, begin_gfx_block example_backend example_world (example_render 0) = some w1 ∧
      begin_gfx_block example_backend w1 (example_render 1) = some w2 ∧
      (∃ issued, w1.trace = example_world.trace ++ issued ∧
        issued.countP GpuCmd.is_createTexture2D = 1 ∧
        issued.countP GpuCmd.is_filter_pass = 7 ∧
        issued.countP GpuCmd.is_copy = 8 ∧
        issued.countP GpuCmd.is_frame = 8) ∧
      w2.trace = w1.trace ∧
      w2.ntex = w1.ntex ∧
      w2.m_prefiltered = w1.m_prefiltered ∧
      (w2.m_radiance 1).m_roughness_array = (w2.m_radiance 0).m_roughness_array ∧
      (w2.m_radiance 0).m_preprocessed = true ∧
      (w2.m_radiance 1).m_preprocessed = true :=
  ⟨by unfold runs_prefilter; decide,
   begin_gfx_block_cache_sharing example_backend example_world (example_render 0)
     (example_render 1) 0 1 5 (by decide) (by unfold runs_prefilter; decide) rfl rfl rfl⟩

/-- C2 at a concrete input: environment 0 of `preprocessed_world`. -/
theorem begin_gfx_block_preprocessed_noop_witness :
    (preprocessed_world.m_radiance 0).m_preprocessed = true ∧
    begin_gfx_block example_backend preprocessed_world (example_render 0) =
      some preprocessed_world ∧
    (∀ radiance, prefilter_radiance example_backend preprocessed_world (example_render 0)
      radiance = some preprocessed_world) ∧
    (begin_gfx_block example_backend preprocessed_world (example_render 0)).bind
        (fun w1 => begin_gfx_block example_backend w1 (example_render 0)) =
      begin_gfx_block example_backend preprocessed_world (example_render 0) :=
  ⟨rfl, begin_gfx_block_preprocessed_noop example_backend preprocessed_world (example_render 0) 0
    rfl rfl⟩

/-- C3 at a concrete input: environment 0 of `example_world` on `rejecting_backend`. -/
theorem prefilter_radiance_both_formats_rejected_witness :
    format_accepted rejecting_backend TextureFormat.RGBA16F = false ∧
    format_accepted rejecting_backend TextureFormat.RGB10A2 = false ∧
    ∃ w1, prefilter_radiance rejecting_backend example_world (example_render 0) 0 = some w1 ∧
      begin_gfx_block rejecting_backend example_world (example_render 0) = some w1 ∧
      (w1.m_radiance 0).m_preprocessed = false ∧
      w1.m_radiance = example_world.m_radiance ∧
      w1.m_prefiltered = example_world.m_prefiltered ∧
      w1.ntex = example_world.ntex ∧
      w1.log = example_world.log ++ [warning] ∧
      ∃ issued, w1.trace = example_world.trace ++ issued ∧
        issued = destroy_if_valid (example_world.m_radiance 0).m_roughness_array ∧
        ∀ c ∈ issued, c.allocates = false ∧ c.is_draw = false :=
  ⟨rfl, rfl,
   prefilter_radiance_both_formats_rejected rejecting_backend example_world (example_render 0)
     0 5 rfl rfl rfl rfl rfl rfl rfl⟩

/-- C4 at a concrete input: environment 0 of `example_world` on `fallback_backend`, where the format used is `RGB10A2`. -/
theorem prefilter_radiance_format_fallback_witness :
    format_accepted fallback_backend TextureFormat.RGBA16F = false ∧
    format_accepted fallback_backend TextureFormat.RGB10A2 = true ∧
    ∃ w1, prefilter_radiance fallback_backend example_world (example_render 0) 0 = some w1 ∧
      (w1.m_radiance 0).m_preprocessed = true ∧
      ∃ issued, w1.trace = example_world.trace ++ issued ∧
        issued.filter GpuCmd.is_createTexture2D =
          [GpuCmd.createTexture2D (w1.m_radiance 0).m_roughness_array
            (width (example_render 0)) (height (example_render 0)) true 1
            TextureFormat.RGB10A2 [TexFlag.RT, TexFlag.CLAMP]] ∧
        created_formats issued = List.replicate 8 TextureFormat.RGB10A2 ∧
        (issued.filter (fun c => c.scratch_size.isSome)).map GpuCmd.created_format =
          List.replicate 7 (some TextureFormat.RGB10A2) :=
  ⟨by decide, by decide,
   prefilter_radiance_format_fallback fallback_backend example_world (example_render 0) 0 5
     TextureFormat.RGB10A2 rfl rfl rfl rfl rfl (Or.inl ⟨by decide, by decide, rfl⟩)⟩

/-- C5, as the code has it, at a concrete input: environment 0 of `example_world`
on `example_backend`. -/
theorem prefilter_radiance_levels_witness :
    runs_prefilter example_backend example_world (example_render 0) 0 5 ∧
    ∃ w1, prefilter_radiance example_backend example_world (example_render 0) 0 = some w1 ∧
      ∃ issued, w1.trace = example_world.trace ++ issued ∧
        level_writes (w1.m_radiance 0).m_roughness_array issued =
          { mip := 0, layer := 0, texture := 5, by_blit := false, roughness := none } ::
          (List.range' 1 7).map (fun i =>
            { mip := i, layer := 0, texture := example_backend.tex_handle (example_world.ntex + i),
              by_blit := false, roughness := some (float32_div i 7) }) ∧
        (List.range' 1 7).map (fun i => float32_div i 7) =
          [9586981 / 67108864, 9586981 / 33554432, 14380471 / 33554432, 9586981 / 16777216,
            5991863 / 8388608, 14380471 / 16777216, 1] ∧
        (∀ i, 1 ≤ i → i ≤ 7 → |float32_div i 7 - (i : ℚ) / 7| ≤ 1 / 2 ^ 25) ∧
        ((level_writes (w1.m_radiance 0).m_roughness_array issued).map
            (fun x => x.roughness)).getLast? = some (some 1) ∧
        issued.countP GpuCmd.is_filter_pass = 7 :=
  ⟨by unfold runs_prefilter; decide,
   prefilter_radiance_levels example_backend example_world (example_render 0) 0 5
     (by unfold runs_prefilter; decide)⟩

/-- C7 at a concrete input: after environment 0 has been prefiltered, a call on environment 2, whose source handle is invalid. -/
theorem begin_gfx_block_no_valid_source_noop_witness :
    run example_backend example_world [Action.begin (example_render 0)] =
      some prefiltered_world ∧
    no_valid_source prefiltered_world (example_render 2) ∧
    begin_gfx_block example_backend prefiltered_world (example_render 2) =
      some prefiltered_world :=
  ⟨rfl, Or.inr ⟨2, rfl, Or.inr ⟨kInvalidHandle, rfl, rfl⟩⟩,
   begin_gfx_block_no_valid_source_noop example_backend example_world prefiltered_world
     [Action.begin (example_render 0)] (example_render 2) rfl rfl
     (Or.inr ⟨2, rfl, Or.inr ⟨kInvalidHandle, rfl, rfl⟩⟩)⟩

/-- C9, as the code has it, at a concrete input: environment 0 of `example_world` on `fallback_backend`, which reports no blit support. -/
theorem prefilter_radiance_layout_witness :
    runs_prefilter fallback_backend example_world (example_render 0) 0 5 ∧
    ∃ w1, prefilter_radiance fallback_backend example_world (example_render 0) 0 = some w1 ∧
      ∃ issued, w1.trace = example_world.trace ++ issued ∧
        issued.filter GpuCmd.is_createTexture2D =
          [GpuCmd.createTexture2D (fallback_backend.tex_handle example_world.ntex)
            (width (example_render 0)) (height (example_render 0)) true 1
            (negotiated_format fallback_backend) [TexFlag.RT, TexFlag.CLAMP]] ∧
        issued.filterMap GpuCmd.scratch_size =
          (List.range' 1 7).map (fun i =>
            (width (example_render 0) >>> i, height (example_render 0) >>> i)) ∧
        (level_writes (fallback_backend.tex_handle example_world.ntex) issued).map
            (fun x => (x.mip, x.layer, x.by_blit)) =
          (List.range 8).map (fun i => (i, 0, false)) ∧
        issued.countP GpuCmd.is_blit = 0 :=
  ⟨by unfold runs_prefilter; decide,
   prefilter_radiance_layout fallback_backend example_world (example_render 0) 0 5
     (by unfold runs_prefilter; decide)⟩

end mud
